import Mathlib

/-!
Verification of the grid spatial-occupancy engine of the `grid` repository.

The definitions below are a shallow embedding of the TypeScript sources:

* `src/grid/GridState.ts` (tile-occupancy ledger, collision checks, the
  place/remove/move/query operations) — embedded as the `GridState` structure
  and the functions in the `GridState` namespace;
* the `GridRenderer` class inside `src/GridMaster.ts` (coordinate math,
  bounds validation, footprint enumeration) — embedded in the `GridRenderer`
  namespace.  This is the renderer revision that provides the
  `isValidObjectArea` / `getOccupiedPositionsForObject` /
  `getPositionsInRectangle` methods that `GridState` calls;
* the older renderer revision `src/grid/GridRenderer.ts`, whose
  `getOccupiedPositions` enumerates a rectangle without clipping — embedded in
  the `GridRendererPrev` namespace.

Coordinates are modelled as `Int`: grid positions and sizes are integral tile
indices/extents, and the pixel conversions in the source use `Math.floor` so
pixel inputs of interest are integral as well (`Int.fdiv` is floor division).

JavaScript `Map`s are modelled as association lists in insertion order:
`mapGet` is `Map.get`, `mapSet` is `Map.set` (replace in place when the key is
present, append otherwise; a JS map never holds a duplicate key, so replacing
every matching entry coincides with replacing the single one), `mapDelete` is
`Map.delete`, and `mapKeys`/`length` are `Map.keys()`/`Map.size`.
`GridState.positionToKey` builds the string key `"x,y"`, which is injective on
integer coordinates, so the occupancy map is keyed by `GridPosition` directly.
-/

structure GridPosition where
  x : Int
  y : Int
deriving DecidableEq, Repr

structure PixelPosition where
  x : Int
  y : Int
deriving DecidableEq, Repr

structure ObjectSize where
  width : Int
  height : Int
deriving DecidableEq, Repr

/-- The `GridConfig` fields the occupancy engine reads (`tileSize`, `width`,
`height` in `src/types` / `GridMaster.ts`); the purely visual fields are not
part of the engine. -/
structure GridConfig where
  tileSize : Int
  width : Int
  height : Int
deriving DecidableEq, Repr

/-- The `OccupationInfo` interface of `src/grid/GridState.ts`. -/
structure OccupationInfo where
  objectId : String
  zIndex : Int
  objectType : String
deriving DecidableEq, Repr

-- The numeric values of the `ZLayer` enum in `src/types`.
namespace ZLayer

def TERRAIN : Int := 0
def VEHICLES : Int := 100
def PROPS : Int := 200
def EFFECTS : Int := 300
def CHARACTERS : Int := 400
def PROJECTILES : Int := 500
def UI : Int := 1000

end ZLayer

/-- The list of the seven z-layer bands, in enum order. -/
def zBands : List Int :=
  [ZLayer.TERRAIN, ZLayer.VEHICLES, ZLayer.PROPS, ZLayer.EFFECTS,
   ZLayer.CHARACTERS, ZLayer.PROJECTILES, ZLayer.UI]

section MapModel

variable {α : Type} {β : Type} [DecidableEq α]

/-- JS `Map.get`: the value of the first (with unique keys: the only) entry for
the key. -/
def mapGet : List (α × β) → α → Option β
  | [], _ => none
  | e :: rest, k => if e.1 = k then some e.2 else mapGet rest k

/-- JS `Map.has`. -/
def mapContains (m : List (α × β)) (k : α) : Bool :=
  (mapGet m k).isSome

/-- JS `Map.set`: replace the entry for the key in place when present, otherwise
append a new entry. -/
def mapSet (m : List (α × β)) (k : α) (v : β) : List (α × β) :=
  if mapContains m k then m.map (fun e => if e.1 = k then (k, v) else e)
  else m ++ [(k, v)]

/-- JS `Map.delete`. -/
def mapDelete : List (α × β) → α → List (α × β)
  | [], _ => []
  | e :: rest, k => if e.1 = k then mapDelete rest k else e :: mapDelete rest k

/-- JS `Array.from(map.keys())`. -/
def mapKeys (m : List (α × β)) : List α :=
  m.map (fun e => e.1)

end MapModel

/-- The integer for-loop `for (v = a; v < a + n; v++)`: the list
`[a, a+1, …, a+n-1]` (empty when `n ≤ 0`). -/
def rangeInt (a : Int) (n : Int) : List Int :=
  (List.range n.toNat).map (fun (i : Nat) => a + (i : Int))

/-- The nested loops `for (x …) for (y …) positions.push({x, y})` shared by
both revisions of `getOccupiedPositions`: all tiles of the rectangle with
top-left `position` and extents `width × height`, x-major. -/
def rectPositions (position : GridPosition) (width height : Int) : List GridPosition :=
  (rangeInt position.x width).flatMap
    (fun x => (rangeInt position.y height).map (fun y => ⟨x, y⟩))

namespace GridRenderer

/-- Embeds `GridRenderer.pixelToGrid` (`Math.floor` of the pixel divided by the tile
size; `Int.fdiv` is floor division). -/
def pixelToGrid (cfg : GridConfig) (pixel : PixelPosition) : GridPosition :=
  ⟨Int.fdiv pixel.x cfg.tileSize, Int.fdiv pixel.y cfg.tileSize⟩

/-- Embeds `GridRenderer.gridToPixel` (top-left corner of the tile). -/
def gridToPixel (cfg : GridConfig) (grid : GridPosition) : PixelPosition :=
  ⟨grid.x * cfg.tileSize, grid.y * cfg.tileSize⟩

/-- Embeds `GridRenderer.snapToGrid`. -/
def snapToGrid (cfg : GridConfig) (pixel : PixelPosition) : PixelPosition :=
  gridToPixel cfg (pixelToGrid cfg pixel)

/-- Embeds `GridRenderer.isValidGridPosition`. -/
def isValidGridPosition (cfg : GridConfig) (position : GridPosition) : Bool :=
  decide (position.x ≥ 0) && decide (position.x < cfg.width) &&
  decide (position.y ≥ 0) && decide (position.y < cfg.height)

/-- Embeds `GridRenderer.isValidGridArea`. -/
def isValidGridArea (cfg : GridConfig) (position : GridPosition)
    (width height : Int) : Bool :=
  isValidGridPosition cfg position &&
  decide (position.x + width ≤ cfg.width) &&
  decide (position.y + height ≤ cfg.height)

/-- Embeds `GridRenderer.isValidObjectArea`. -/
def isValidObjectArea (cfg : GridConfig) (position : GridPosition)
    (size : ObjectSize) : Bool :=
  isValidGridArea cfg position size.width size.height

/-- Embeds `GridRenderer.getOccupiedPositions` in `GridMaster.ts`: enumerates the
rectangle and pushes only tiles that pass `isValidGridPosition` (this revision
clips out-of-bounds tiles). -/
def getOccupiedPositions (cfg : GridConfig) (position : GridPosition)
    (width height : Int) : List GridPosition :=
  (rectPositions position width height).filter (fun p => isValidGridPosition cfg p)

/-- Embeds `GridRenderer.getOccupiedPositionsForObject`. -/
def getOccupiedPositionsForObject (cfg : GridConfig) (position : GridPosition)
    (size : ObjectSize) : List GridPosition :=
  getOccupiedPositions cfg position size.width size.height

/-- The inclusive integer loop `for (v = lo; v <= hi; v++)`. -/
def rangeIncl (lo hi : Int) : List Int :=
  rangeInt lo (hi - lo + 1)

/-- Embeds `GridRenderer.getPositionsInRectangle`: normalizes the two corners and
clips the loop bounds to `[0, width-1] × [0, height-1]`. -/
def getPositionsInRectangle (cfg : GridConfig) (topLeft bottomRight : GridPosition) :
    List GridPosition :=
  let minX := max 0 (min topLeft.x bottomRight.x)
  let maxX := min (cfg.width - 1) (max topLeft.x bottomRight.x)
  let minY := max 0 (min topLeft.y bottomRight.y)
  let maxY := min (cfg.height - 1) (max topLeft.y bottomRight.y)
  (rangeIncl minX maxX).flatMap
    (fun x => (rangeIncl minY maxY).map (fun y => ⟨x, y⟩))

/-- Embeds `GridRenderer.getPositionsInRadius`: loop bounds clipped to the grid, with
the Euclidean-distance test.  The source compares
`Math.sqrt(dx*dx + dy*dy) <= radius`; on integers that holds exactly when
`dx*dx + dy*dy ≤ radius*radius` (the loop ranges are empty whenever
`radius < 0`, so squaring is faithful). -/
def getPositionsInRadius (cfg : GridConfig) (center : GridPosition)
    (radius : Int) : List GridPosition :=
  let minX := max 0 (center.x - radius)
  let maxX := min (cfg.width - 1) (center.x + radius)
  let minY := max 0 (center.y - radius)
  let maxY := min (cfg.height - 1) (center.y + radius)
  (rangeIncl minX maxX).flatMap
    (fun x => (rangeIncl minY maxY).filterMap
      (fun y =>
        let dx := x - center.x
        let dy := y - center.y
        if dx * dx + dy * dy ≤ radius * radius then some ⟨x, y⟩ else none))

end GridRenderer

namespace GridRendererPrev

/-- Embeds `GridRenderer.getOccupiedPositions` in the `src/grid/GridRenderer.ts`
revision: enumerates the whole rectangle with no validity filter (no
clipping). -/
def getOccupiedPositions (position : GridPosition) (width height : Int) :
    List GridPosition :=
  rectPositions position width height

end GridRendererPrev

/-- The state of `src/grid/GridState.ts`: the three instance maps plus the
configuration of the `GridRenderer` the instance holds. -/
structure GridState where
  occupiedTiles : List (GridPosition × List OccupationInfo)
  objectPositions : List (String × GridPosition)
  objectSizes : List (String × ObjectSize)
  config : GridConfig
deriving Repr

namespace GridState

/-- A freshly constructed `GridState` for a renderer with the given
configuration. -/
def emptyState (cfg : GridConfig) : GridState :=
  ⟨[], [], [], cfg⟩

/-- Embeds `GridState.isTileOccupied`. -/
def isTileOccupied (s : GridState) (position : GridPosition) : Bool :=
  match mapGet s.occupiedTiles position with
  | none => false
  | some occupation => decide (occupation.length > 0)

/-- Embeds `GridState.getAllObjectsAtPosition` (`this.occupiedTiles.get(key) ?? []`). -/
def getAllObjectsAtPosition (s : GridState) (position : GridPosition) :
    List OccupationInfo :=
  (mapGet s.occupiedTiles position).getD []

/-- Embeds `GridState.hasZLayerConflict`, transcribed clause by clause. -/
def hasZLayerConflict (zIndex1 zIndex2 : Int) : Bool :=
  if zIndex1 = ZLayer.CHARACTERS ∧ zIndex2 = ZLayer.CHARACTERS then true
  else if zIndex1 = ZLayer.VEHICLES ∧ zIndex2 = ZLayer.VEHICLES then true
  else if zIndex1 = ZLayer.PROPS ∧ (zIndex2 = ZLayer.PROPS ∨ zIndex2 = ZLayer.VEHICLES) then true
  else if zIndex2 = ZLayer.PROPS ∧ zIndex1 = ZLayer.VEHICLES then true
  else if zIndex1 = ZLayer.TERRAIN ∧ ¬zIndex2 = ZLayer.EFFECTS ∧
          ¬zIndex2 = ZLayer.PROJECTILES ∧ ¬zIndex2 = ZLayer.UI then true
  else if zIndex2 = ZLayer.TERRAIN ∧ ¬zIndex1 = ZLayer.EFFECTS ∧
          ¬zIndex1 = ZLayer.PROJECTILES ∧ ¬zIndex1 = ZLayer.UI then true
  else false

/-- The guard `objectId && info.objectId === objectId` inside
`canPlaceObject`: the tuple is skipped only when an excludeId was supplied,
it is not the empty string (an empty string is falsy in JS), and it equals the
tuple's id. -/
def excludeGuard (objectId : Option String) (info : OccupationInfo) : Bool :=
  match objectId with
  | some e => !(decide (e = "")) && decide (info.objectId = e)
  | none => false

/-- Embeds `GridState.canPlaceObject`. -/
def canPlaceObject (s : GridState) (position : GridPosition) (size : ObjectSize)
    (zIndex : Int) (objectId : Option String) : Bool :=
  if !(GridRenderer.isValidObjectArea s.config position size) then false
  else
    (GridRenderer.getOccupiedPositionsForObject s.config position size).all
      (fun pos =>
        (getAllObjectsAtPosition s pos).all
          (fun info =>
            if excludeGuard objectId info then true
            else !(hasZLayerConflict zIndex info.zIndex)))

/-- One iteration of the tile-clearing loop of `removeObject`. -/
def removeTileStep (objectId : String)
    (m : List (GridPosition × List OccupationInfo)) (pos : GridPosition) :
    List (GridPosition × List OccupationInfo) :=
  match mapGet m pos with
  | none => m
  | some occupation =>
    let filtered := occupation.filter (fun info => !(decide (info.objectId = objectId)))
    if filtered.length = 0 then mapDelete m pos else mapSet m pos filtered

/-- Embeds `GridState.removeObject`. -/
def removeObject (s : GridState) (objectId : String) : GridState × Bool :=
  match mapGet s.objectPositions objectId, mapGet s.objectSizes objectId with
  | some position, some size =>
    let positions := GridRenderer.getOccupiedPositionsForObject s.config position size
    ({ occupiedTiles := positions.foldl (removeTileStep objectId) s.occupiedTiles,
       objectPositions := mapDelete s.objectPositions objectId,
       objectSizes := mapDelete s.objectSizes objectId,
       config := s.config }, true)
  | _, _ => (s, false)

/-- One iteration of the tile-marking loop of `placeObject`
(`existing = get(key) || []; existing.push(info); set(key, existing)`). -/
def placeTileStep (info : OccupationInfo)
    (m : List (GridPosition × List OccupationInfo)) (pos : GridPosition) :
    List (GridPosition × List OccupationInfo) :=
  mapSet m pos ((mapGet m pos).getD [] ++ [info])

/-- Embeds `GridState.placeObject`: checks `canPlaceObject` (excluding the object's
own id) first; only on success removes any existing record and inserts the new
footprint and metadata. -/
def placeObject (s : GridState) (objectId : String) (position : GridPosition)
    (size : ObjectSize) (zIndex : Int) (objectType : String) : GridState × Bool :=
  if !(canPlaceObject s position size zIndex (some objectId)) then (s, false)
  else
    let s1 := (removeObject s objectId).1
    let positions := GridRenderer.getOccupiedPositionsForObject s1.config position size
    let info : OccupationInfo := ⟨objectId, zIndex, objectType⟩
    ({ occupiedTiles := positions.foldl (placeTileStep info) s1.occupiedTiles,
       objectPositions := mapSet s1.objectPositions objectId position,
       objectSizes := mapSet s1.objectSizes objectId size,
       config := s1.config }, true)

/-- Embeds `GridState.moveObject`: looks up the size and current position in the
registry maps, then finds the z-index by scanning the occupancy list at the
current position for the first tuple with the object's id. -/
def moveObject (s : GridState) (objectId : String) (newPosition : GridPosition) :
    GridState × Bool :=
  match mapGet s.objectSizes objectId with
  | none => (s, false)
  | some size =>
    match mapGet s.objectPositions objectId with
    | none => (s, false)
    | some currentPosition =>
      match (getAllObjectsAtPosition s currentPosition).find?
          (fun info => decide (info.objectId = objectId)) with
      | none => (s, false)
      | some objectInfo =>
        if !(canPlaceObject s newPosition size objectInfo.zIndex (some objectId)) then
          (s, false)
        else
          placeObject (removeObject s objectId).1 objectId newPosition size
            objectInfo.zIndex objectInfo.objectType

/-- The `reduce` inside `getObjectAtPosition`: fold keeping the current best,
replacing it only on a strictly greater `zIndex`. -/
def reduceHighest (h : OccupationInfo) (t : List OccupationInfo) : OccupationInfo :=
  t.foldl (fun highest current =>
    if current.zIndex > highest.zIndex then current else highest) h

/-- Embeds `GridState.getObjectAtPosition`. -/
def getObjectAtPosition (s : GridState) (position : GridPosition) :
    Option OccupationInfo :=
  match mapGet s.occupiedTiles position with
  | none => none
  | some [] => none
  | some (h :: t) => some (reduceHighest h t)

/-- Embeds `GridState.getObjectPosition`. -/
def getObjectPosition (s : GridState) (objectId : String) : Option GridPosition :=
  mapGet s.objectPositions objectId

/-- Embeds `GridState.getObjectSize`. -/
def getObjectSize (s : GridState) (objectId : String) : Option ObjectSize :=
  mapGet s.objectSizes objectId

/-- Embeds `GridState.clearAll`. -/
def clearAll (s : GridState) : GridState :=
  ⟨[], [], [], s.config⟩

/-- Embeds `GridState.getStats().totalObjects` (`this.objectPositions.size`). -/
def totalObjects (s : GridState) : Nat :=
  s.objectPositions.length

/-- One iteration of the eviction scan of `handleGridResize`. -/
def resizeStep (st : GridState) (objectId : String) : GridState :=
  match mapGet st.objectPositions objectId, mapGet st.objectSizes objectId with
  | some position, some size =>
    if !(GridRenderer.isValidObjectArea st.config position size) then
      (removeObject st objectId).1
    else st
  | _, _ => st

/-- The grid-resize operation as seen by `GridState`: the renderer's
configuration is updated to the new dimensions first (`updateConfig` runs
before the `gridResize` event reaches `GridState.handleGridResize`), then
every registered object whose area is no longer valid is removed. -/
def handleGridResize (s : GridState) (newWidth newHeight : Int) : GridState :=
  let s0 : GridState :=
    { s with config := { s.config with width := newWidth, height := newHeight } }
  (mapKeys s0.objectPositions).foldl resizeStep s0

/-- Whether `handleGridResize` evicts the object of a registry entry: both
records present and the area invalid under the (new) configuration. -/
def evictedByResize (s : GridState) (objectId : String) : Bool :=
  match mapGet s.objectPositions objectId, mapGet s.objectSizes objectId with
  | some position, some size => !(GridRenderer.isValidObjectArea s.config position size)
  | _, _ => false

/-- The number of tuples for a given object id at a given tile. -/
def tupleCount (s : GridState) (t : GridPosition) (objectId : String) : Nat :=
  (getAllObjectsAtPosition s t).countP (fun info => decide (info.objectId = objectId))

/-- The sublist of occupancy tuples carrying a given object id at a given
tile, in list order and with their full payloads (`zIndex`, `objectType`). -/
def tuplesFor (s : GridState) (t : GridPosition) (objectId : String) :
    List OccupationInfo :=
  (getAllObjectsAtPosition s t).filter (fun info => decide (info.objectId = objectId))

end GridState

/-- Modelled from the spec: the collision policy table of §4.2 (and claim C2),
written as an explicit rule list over the seven bands: CHARACTERS–CHARACTERS,
VEHICLES–VEHICLES, PROPS–PROPS and PROPS–VEHICLES (both orders) conflict;
TERRAIN conflicts with everything except EFFECTS, PROJECTILES and UI (both
orders); nothing else conflicts. -/
def conflictsSpec (a b : Int) : Bool :=
  (decide (a = ZLayer.CHARACTERS) && decide (b = ZLayer.CHARACTERS)) ||
  (decide (a = ZLayer.VEHICLES) && decide (b = ZLayer.VEHICLES)) ||
  (decide (a = ZLayer.PROPS) && decide (b = ZLayer.PROPS)) ||
  (decide (a = ZLayer.PROPS) && decide (b = ZLayer.VEHICLES)) ||
  (decide (a = ZLayer.VEHICLES) && decide (b = ZLayer.PROPS)) ||
  (decide (a = ZLayer.TERRAIN) &&
    !(decide (b = ZLayer.EFFECTS) || decide (b = ZLayer.PROJECTILES) || decide (b = ZLayer.UI))) ||
  (decide (b = ZLayer.TERRAIN) &&
    !(decide (a = ZLayer.EFFECTS) || decide (a = ZLayer.PROJECTILES) || decide (a = ZLayer.UI)))

-- Concrete scenario states used by the evaluation theorems and witnesses
-- below.  The configuration is the default 20×15 grid with 48-pixel tiles.

def cfg2015 : GridConfig := ⟨48, 20, 15⟩

/-- A 2×2 prop placed flush against the bottom-right corner of the 20×15
grid (the spec's resize-eviction scenario). -/
def resizeDemoPlaced : GridState :=
  (GridState.placeObject (GridState.emptyState cfg2015) "a" ⟨18, 13⟩ ⟨2, 2⟩
    ZLayer.PROPS "prop").1

/-- The state after shrinking the grid of `resizeDemoPlaced` to 15×10. -/
def resizeDemoAfter : GridState :=
  GridState.handleGridResize resizeDemoPlaced 15 10

/-- Character "A" at (0,0). -/
def demoA : GridState :=
  (GridState.placeObject (GridState.emptyState cfg2015) "A" ⟨0, 0⟩ ⟨1, 1⟩
    ZLayer.CHARACTERS "character").1

/-- Character "A" at (0,0) and character "B" at (1,0). -/
def demoAB : GridState :=
  (GridState.placeObject demoA "B" ⟨1, 0⟩ ⟨1, 1⟩ ZLayer.CHARACTERS "character").1

/-- Effect "A" at (0,0). -/
def demoAEffect : GridState :=
  (GridState.placeObject (GridState.emptyState cfg2015) "A" ⟨0, 0⟩ ⟨1, 1⟩
    ZLayer.EFFECTS "effect").1

/-- Effect "A" at (0,0) and character "B" at (1,0): the registry maps
(positions and sizes) coincide with those of `demoAB`, only the z-index stored
in the occupancy tuple of "A" differs. -/
def demoABEffect : GridState :=
  (GridState.placeObject demoAEffect "B" ⟨1, 0⟩ ⟨1, 1⟩ ZLayer.CHARACTERS "character").1

/-- Two effects stacked on the same tile (a z-index tie at 300). -/
def demoTie : GridState :=
  (GridState.placeObject
    ((GridState.placeObject (GridState.emptyState cfg2015) "e1" ⟨5, 5⟩ ⟨1, 1⟩
      ZLayer.EFFECTS "effect").1)
    "e2" ⟨5, 5⟩ ⟨1, 1⟩ ZLayer.EFFECTS "effect").1

/-- Two objects on the 20×15 grid: the edge prop "a" of `resizeDemoPlaced`
(evicted by a shrink to 15×10) and a character "b" at (0,0) (which
survives). -/
def resizeDemoTwo : GridState :=
  (GridState.placeObject resizeDemoPlaced "b" ⟨0, 0⟩ ⟨1, 1⟩
    ZLayer.CHARACTERS "character").1

/-! ### Lemmas about the map model and the loop ranges -/

section MapLemmas

variable {α : Type} {β : Type} [DecidableEq α]

theorem mapGet_cons (e : α × β) (rest : List (α × β)) (k : α) :
    mapGet (e :: rest) k = if e.1 = k then some e.2 else mapGet rest k := rfl

theorem mapGet_mapDelete (m : List (α × β)) (k k' : α) :
    mapGet (mapDelete m k) k' = if k' = k then none else mapGet m k' := by
  induction m with
  | nil => simp [mapDelete, mapGet]
  | cons e rest ih =>
    simp only [mapDelete]
    by_cases h1 : e.1 = k
    · rw [if_pos h1, ih]
      by_cases h2 : k' = k
      · simp [h2]
      · have h3 : ¬e.1 = k' := fun hh => h2 (hh ▸ h1 ▸ rfl)
        simp [mapGet_cons, h2, h3]
    · rw [if_neg h1, mapGet_cons]
      by_cases h2 : e.1 = k'
      · have h3 : ¬k' = k := fun hh => h1 (h2.trans hh)
        simp [mapGet_cons, h2, h3]
      · rw [if_neg h2, ih, mapGet_cons, if_neg h2]

theorem mapDelete_eq_filter (m : List (α × β)) (k : α) :
    mapDelete m k = m.filter (fun e => !(decide (e.1 = k))) := by
  induction m with
  | nil => simp [mapDelete]
  | cons e rest ih =>
    by_cases h1 : e.1 = k <;> simp [mapDelete, h1, ih, List.filter_cons]

theorem mapGet_append (l1 l2 : List (α × β)) (k : α) :
    mapGet (l1 ++ l2) k =
      match mapGet l1 k with
      | some v => some v
      | none => mapGet l2 k := by
  induction l1 with
  | nil => simp [mapGet]
  | cons e rest ih =>
    by_cases h1 : e.1 = k <;> simp [mapGet_cons, List.cons_append, h1, ih]

theorem mapContains_eq_false_iff (m : List (α × β)) (k : α) :
    mapContains m k = false ↔ mapGet m k = none := by
  unfold mapContains
  cases mapGet m k <;> simp

theorem mapGet_mapReplace (m : List (α × β)) (k k' : α) (v : β) :
    mapGet (m.map (fun e => if e.1 = k then (k, v) else e)) k' =
      if k' = k then (if mapContains m k then some v else none)
      else mapGet m k' := by
  induction m with
  | nil => simp [mapGet, mapContains]
  | cons e rest ih =>
    simp only [List.map_cons]
    by_cases h1 : e.1 = k
    · rw [if_pos h1]
      by_cases h2 : k' = k
      · subst h2
        simp [mapGet_cons, mapContains, h1]
      · have h3 : ¬e.1 = k' := fun hh => h2 (hh ▸ h1 ▸ rfl)
        have h4 : ¬k = k' := fun hh => h2 hh.symm
        rw [mapGet_cons, mapGet_cons]
        simp only [h4, if_false, if_neg h3, ih, if_neg h2]
    · rw [if_neg h1, mapGet_cons, mapGet_cons]
      by_cases h2 : e.1 = k'
      · have h3 : ¬k' = k := fun hh => h1 (h2.trans hh)
        simp [h2, h3]
      · rw [if_neg h2, if_neg h2, ih]
        by_cases h3 : k' = k
        · subst h3
          have : mapContains (e :: rest) k' = mapContains rest k' := by
            simp [mapContains, mapGet_cons, h1]
          simp [this]
        · simp [h3]

theorem mapGet_mapSet (m : List (α × β)) (k k' : α) (v : β) :
    mapGet (mapSet m k v) k' = if k' = k then some v else mapGet m k' := by
  unfold mapSet
  by_cases hc : mapContains m k
  · rw [if_pos hc, mapGet_mapReplace, hc]
    by_cases h2 : k' = k <;> simp [h2]
  · rw [if_neg hc, mapGet_append]
    have hnone : mapGet m k = none := (mapContains_eq_false_iff m k).mp (by simpa using hc)
    by_cases h2 : k' = k
    · subst h2
      simp [hnone, mapGet_cons]
    · have h3 : ¬k = k' := fun hh => h2 hh.symm
      cases hg : mapGet m k' <;> simp [mapGet_cons, h3, mapGet, hg, h2]

theorem mapGet_filter_key (p : α → Bool) (m : List (α × β)) (k : α) :
    mapGet (m.filter (fun e => p e.1)) k = if p k then mapGet m k else none := by
  induction m with
  | nil => simp [mapGet]
  | cons e rest ih =>
    rw [List.filter_cons]
    by_cases hp : p e.1
    · simp only [hp, if_true, mapGet_cons]
      by_cases h2 : e.1 = k
      · subst h2
        simp [hp]
      · rw [if_neg h2, ih]
        by_cases hk : p k <;> simp [hk, mapGet_cons, h2]
    · simp only [hp]
      rw [if_neg (by simp [hp]), ih]
      by_cases h2 : e.1 = k
      · subst h2
        simp only [Bool.not_eq_true] at hp
        simp [hp]
      · rw [mapGet_cons, if_neg h2]

theorem mapGet_some_mem_keys {m : List (α × β)} {k : α} {v : β}
    (h : mapGet m k = some v) : k ∈ mapKeys m := by
  induction m with
  | nil => simp [mapGet] at h
  | cons e rest ih =>
    rw [mapGet_cons] at h
    by_cases h1 : e.1 = k
    · subst h1
      simp [mapKeys]
    · rw [if_neg h1] at h
      simp only [mapKeys, List.map_cons, List.mem_cons]
      exact Or.inr (ih h)

end MapLemmas

theorem mem_rangeInt (a n x : Int) : x ∈ rangeInt a n ↔ a ≤ x ∧ x < a + n := by
  unfold rangeInt
  simp only [List.mem_map, List.mem_range]
  constructor
  · rintro ⟨i, hi, rfl⟩
    omega
  · rintro ⟨h1, h2⟩
    exact ⟨(x - a).toNat, by omega, by omega⟩

theorem mem_rectPositions (position : GridPosition) (w h : Int) (p : GridPosition) :
    p ∈ rectPositions position w h ↔
      position.x ≤ p.x ∧ p.x < position.x + w ∧
      position.y ≤ p.y ∧ p.y < position.y + h := by
  unfold rectPositions
  simp only [List.mem_flatMap, List.mem_map]
  constructor
  · rintro ⟨x, hx, y, hy, rfl⟩
    rw [mem_rangeInt] at hx hy
    exact ⟨hx.1, hx.2, hy.1, hy.2⟩
  · rintro ⟨h1, h2, h3, h4⟩
    exact ⟨p.x, (mem_rangeInt ..).mpr ⟨h1, h2⟩, p.y, (mem_rangeInt ..).mpr ⟨h3, h4⟩, rfl⟩

theorem length_rectPositions (position : GridPosition) (w h : Int) :
    (rectPositions position w h).length = w.toNat * h.toNat := by
  have hconst : ∀ (L : List Int) (c : Nat), (L.map (fun _ => c)).sum = L.length * c := by
    intro L c
    induction L with
    | nil => simp
    | cons a L ih => simp [ih, Nat.succ_mul]; omega
  unfold rectPositions
  rw [List.length_flatMap]
  simp only [Function.comp_def, List.length_map]
  rw [hconst]
  simp [rangeInt]

theorem mem_rangeIncl (lo hi x : Int) :
    x ∈ GridRenderer.rangeIncl lo hi ↔ lo ≤ x ∧ x ≤ hi := by
  unfold GridRenderer.rangeIncl
  rw [mem_rangeInt]
  omega

theorem footprint_eq_rect_of_valid (cfg : GridConfig) (position : GridPosition)
    (size : ObjectSize) (h : GridRenderer.isValidObjectArea cfg position size = true) :
    GridRenderer.getOccupiedPositionsForObject cfg position size
      = rectPositions position size.width size.height := by
  unfold GridRenderer.getOccupiedPositionsForObject GridRenderer.getOccupiedPositions
  apply List.filter_eq_self.mpr
  intro p hp
  rw [mem_rectPositions] at hp
  unfold GridRenderer.isValidObjectArea GridRenderer.isValidGridArea
    GridRenderer.isValidGridPosition at h
  unfold GridRenderer.isValidGridPosition
  simp only [Bool.and_eq_true, decide_eq_true_eq] at h ⊢
  omega

/-! ### Claim theorems -/

/-- C2: over the seven z-layer bands, `hasZLayerConflict` is exactly the
spec's policy table (CHARACTERS–CHARACTERS, VEHICLES–VEHICLES, PROPS–PROPS and
PROPS–VEHICLES conflict; TERRAIN conflicts with every band except EFFECTS,
PROJECTILES and UI, in particular TERRAIN–TERRAIN conflicts; EFFECTS and
PROJECTILES conflict with nothing; every other pair does not conflict), and it
is symmetric. -/
theorem hasZLayerConflict_matches_policy :
    ∀ a ∈ zBands, ∀ b ∈ zBands,
      GridState.hasZLayerConflict a b = conflictsSpec a b ∧
      GridState.hasZLayerConflict a b = GridState.hasZLayerConflict b a ∧
      GridState.hasZLayerConflict ZLayer.EFFECTS a = false ∧
      GridState.hasZLayerConflict a ZLayer.EFFECTS = false ∧
      GridState.hasZLayerConflict ZLayer.PROJECTILES a = false ∧
      GridState.hasZLayerConflict a ZLayer.PROJECTILES = false := by
  decide

/-- Witness for C2 at the TERRAIN–TERRAIN pair. -/
theorem hasZLayerConflict_matches_policy_witness :
    GridState.hasZLayerConflict ZLayer.TERRAIN ZLayer.TERRAIN
        = conflictsSpec ZLayer.TERRAIN ZLayer.TERRAIN ∧
      GridState.hasZLayerConflict ZLayer.TERRAIN ZLayer.TERRAIN
        = GridState.hasZLayerConflict ZLayer.TERRAIN ZLayer.TERRAIN ∧
      GridState.hasZLayerConflict ZLayer.EFFECTS ZLayer.TERRAIN = false ∧
      GridState.hasZLayerConflict ZLayer.TERRAIN ZLayer.EFFECTS = false ∧
      GridState.hasZLayerConflict ZLayer.PROJECTILES ZLayer.TERRAIN = false ∧
      GridState.hasZLayerConflict ZLayer.TERRAIN ZLayer.PROJECTILES = false :=
  hasZLayerConflict_matches_policy ZLayer.TERRAIN (by decide) ZLayer.TERRAIN (by decide)

/-- C9: for every pixel pair, `gridToPixel (pixelToGrid p)` equals
`snapToGrid p`, both equal the componentwise `floor(px / tileSize) * tileSize`
(the floor bounds are stated explicitly), and `pixelToGrid` floors without
clamping, so negative pixel inputs yield negative tile indices. -/
theorem pixelToGrid_roundTrip :
    ∀ (cfg : GridConfig) (p : PixelPosition), 0 < cfg.tileSize →
      GridRenderer.gridToPixel cfg (GridRenderer.pixelToGrid cfg p)
          = GridRenderer.snapToGrid cfg p ∧
      GridRenderer.snapToGrid cfg p =
        ⟨Int.fdiv p.x cfg.tileSize * cfg.tileSize,
         Int.fdiv p.y cfg.tileSize * cfg.tileSize⟩ ∧
      (GridRenderer.pixelToGrid cfg p).x * cfg.tileSize ≤ p.x ∧
      p.x < ((GridRenderer.pixelToGrid cfg p).x + 1) * cfg.tileSize ∧
      (GridRenderer.pixelToGrid cfg p).y * cfg.tileSize ≤ p.y ∧
      p.y < ((GridRenderer.pixelToGrid cfg p).y + 1) * cfg.tileSize ∧
      (p.x < 0 → (GridRenderer.pixelToGrid cfg p).x < 0) ∧
      (p.y < 0 → (GridRenderer.pixelToGrid cfg p).y < 0) := by
  intro cfg p h
  have hx : Int.fdiv p.x cfg.tileSize = p.x / cfg.tileSize := Int.fdiv_eq_ediv p.x h.le
  have hy : Int.fdiv p.y cfg.tileSize = p.y / cfg.tileSize := Int.fdiv_eq_ediv p.y h.le
  refine ⟨rfl, rfl, ?_, ?_, ?_, ?_, ?_, ?_⟩ <;>
    simp only [GridRenderer.pixelToGrid, hx, hy]
  · exact Int.ediv_mul_le p.x h.ne'
  · exact Int.lt_ediv_add_one_mul_self p.x h
  · exact Int.ediv_mul_le p.y h.ne'
  · exact Int.lt_ediv_add_one_mul_self p.y h
  · exact fun hneg => Int.ediv_neg' hneg h
  · exact fun hneg => Int.ediv_neg' hneg h

/-- Witness for C9 at the default tile size and the pixel (-1, -1). -/
theorem pixelToGrid_roundTrip_witness :
    GridRenderer.gridToPixel cfg2015 (GridRenderer.pixelToGrid cfg2015 ⟨-1, -1⟩)
        = GridRenderer.snapToGrid cfg2015 ⟨-1, -1⟩ ∧
      GridRenderer.snapToGrid cfg2015 ⟨-1, -1⟩ =
        ⟨Int.fdiv (-1) cfg2015.tileSize * cfg2015.tileSize,
         Int.fdiv (-1) cfg2015.tileSize * cfg2015.tileSize⟩ ∧
      (GridRenderer.pixelToGrid cfg2015 ⟨-1, -1⟩).x * cfg2015.tileSize ≤ -1 ∧
      (-1 : Int) < ((GridRenderer.pixelToGrid cfg2015 ⟨-1, -1⟩).x + 1) * cfg2015.tileSize ∧
      (GridRenderer.pixelToGrid cfg2015 ⟨-1, -1⟩).y * cfg2015.tileSize ≤ -1 ∧
      (-1 : Int) < ((GridRenderer.pixelToGrid cfg2015 ⟨-1, -1⟩).y + 1) * cfg2015.tileSize ∧
      ((-1 : Int) < 0 → (GridRenderer.pixelToGrid cfg2015 ⟨-1, -1⟩).x < 0) ∧
      ((-1 : Int) < 0 → (GridRenderer.pixelToGrid cfg2015 ⟨-1, -1⟩).y < 0) :=
  pixelToGrid_roundTrip cfg2015 ⟨-1, -1⟩ (by decide)

/-- C1 is violated by the code: place a 2×2 prop at (18,13) on the 20×15 grid,
then shrink the grid to 15×10.  The eviction inside `handleGridResize` removes
the registry record for "a", but — because `getOccupiedPositionsForObject`
clips its enumeration to the *new* bounds, under which every footprint tile of
"a" is out of range — it clears no occupancy tuples, leaving a tuple for the
unregistered id "a" at tile (18,13) (and at the three other footprint tiles).
The registry is empty yet the ledger is not. -/
theorem resize_eviction_leaves_stray_tuples :
    GridState.getObjectPosition resizeDemoAfter "a" = none ∧
    GridState.getObjectSize resizeDemoAfter "a" = none ∧
    GridState.totalObjects resizeDemoAfter = 0 ∧
    GridState.getAllObjectsAtPosition resizeDemoAfter ⟨18, 13⟩
      = [⟨"a", ZLayer.PROPS, "prop"⟩] ∧
    GridState.getAllObjectsAtPosition resizeDemoAfter ⟨19, 14⟩
      = [⟨"a", ZLayer.PROPS, "prop"⟩] := by
  decide

/-- C4 as stated is false: re-placing an existing id at an occupied position
fails, and the object is *not* gone — `placeObject` runs its `canPlaceObject`
check (with the object's own id excluded) before the internal remove, so on
failure the old record survives.  Here "A" (a character at (0,0)) is re-placed
onto "B" (a character at (1,0)): the call returns false and "A" is still
registered at (0,0), where the claim requires it to have been removed. -/
theorem placeObject_failure_keeps_old_record :
    (GridState.placeObject demoAB "A" ⟨1, 0⟩ ⟨1, 1⟩ ZLayer.CHARACTERS "character").2
        = false ∧
    GridState.getObjectPosition
        (GridState.placeObject demoAB "A" ⟨1, 0⟩ ⟨1, 1⟩ ZLayer.CHARACTERS "character").1 "A"
      = some ⟨0, 0⟩ := by
  decide

/-- C4 amended: `place` first checks `canPlace(pos, size, zLayer,
excludeId := id)` — the internal remove happens only after that check passes —
so when the check fails, `place` returns false, the state is exactly the
pre-call state, and an already-registered id keeps its old position. -/
theorem placeObject_checks_before_removing :
    ∀ (s : GridState) (objectId : String) (position oldPos : GridPosition)
      (size : ObjectSize) (zIndex : Int) (objectType : String),
      (GridState.canPlaceObject s position size zIndex (some objectId) = false →
        GridState.placeObject s objectId position size zIndex objectType = (s, false)) ∧
      (mapGet s.objectPositions objectId = some oldPos →
        (GridState.placeObject s objectId position size zIndex objectType).2 = false →
        GridState.getObjectPosition
          (GridState.placeObject s objectId position size zIndex objectType).1 objectId
            = some oldPos) := by
  intro s objectId position oldPos size zIndex objectType
  constructor
  · intro hfail
    unfold GridState.placeObject
    simp [hfail]
  · intro hold hsnd
    have hfail : GridState.canPlaceObject s position size zIndex (some objectId) = false := by
      by_contra hne
      have htrue : GridState.canPlaceObject s position size zIndex (some objectId) = true := by
        cases hcp : GridState.canPlaceObject s position size zIndex (some objectId)
        · exact absurd hcp hne
        · rfl
      unfold GridState.placeObject at hsnd
      simp [htrue] at hsnd
    have heq : GridState.placeObject s objectId position size zIndex objectType = (s, false) := by
      unfold GridState.placeObject
      simp [hfail]
    rw [heq]
    exact hold

/-- Witness for C4's amended theorem: the failing re-place of "A" in `demoAB`
returns the unchanged state. -/
theorem placeObject_checks_before_removing_witness :
    GridState.placeObject demoAB "A" ⟨1, 0⟩ ⟨1, 1⟩ ZLayer.CHARACTERS "character"
      = (demoAB, false) :=
  (placeObject_checks_before_removing demoAB "A" ⟨1, 0⟩ ⟨0, 0⟩ ⟨1, 1⟩
    ZLayer.CHARACTERS "character").1 (by decide)

/-- C5 as stated is false: `moveObject` derives the z-layer for its collision
check by scanning the occupancy tuples at the object's current tile, not from
a canonical per-object record (the registry records only position and size —
no z-layer).  The states `demoAB` and `demoABEffect` have *identical* registry
maps for both objects and identical tuples for "B"; they differ only in the
z-index stored inside "A"'s own occupancy tuple — yet moving "A" onto "B"
fails in one and succeeds in the other, so the z-layer used was re-derived
from the occupancy tuples. -/
theorem moveObject_rederives_zindex_from_tiles :
    demoAB.objectPositions = demoABEffect.objectPositions ∧
    demoAB.objectSizes = demoABEffect.objectSizes ∧
    GridState.getAllObjectsAtPosition demoAB ⟨1, 0⟩
      = GridState.getAllObjectsAtPosition demoABEffect ⟨1, 0⟩ ∧
    (GridState.moveObject demoAB "A" ⟨1, 0⟩).2 = false ∧
    (GridState.moveObject demoABEffect "A" ⟨1, 0⟩).2 = true := by
  decide

/-- C5 amended: `move` reads the object's size and current position from the
registry maps, but obtains the z-layer (and category) for its collision check
by scanning the occupancy list at the object's current position for the first
tuple carrying the object's id; the collision check and the re-placement use
exactly that scanned tuple's z-index and category. -/
theorem moveObject_uses_scanned_tuple :
    ∀ (s : GridState) (objectId : String) (newPosition : GridPosition)
      (size : ObjectSize) (currentPosition : GridPosition) (info : OccupationInfo),
      mapGet s.objectSizes objectId = some size →
      mapGet s.objectPositions objectId = some currentPosition →
      (GridState.getAllObjectsAtPosition s currentPosition).find?
          (fun i => decide (i.objectId = objectId)) = some info →
      GridState.moveObject s objectId newPosition =
        (if GridState.canPlaceObject s newPosition size info.zIndex (some objectId) then
          GridState.placeObject (GridState.removeObject s objectId).1 objectId
            newPosition size info.zIndex info.objectType
        else (s, false)) := by
  intro s objectId newPosition size currentPosition info hsize hpos hfind
  unfold GridState.moveObject
  simp only [hsize, hpos, hfind]
  cases hcp : GridState.canPlaceObject s newPosition size info.zIndex (some objectId) <;>
    simp [hcp]

/-- Witness for C5's amended theorem at the `demoAB` scenario. -/
theorem moveObject_uses_scanned_tuple_witness :
    GridState.moveObject demoAB "A" ⟨1, 0⟩ =
      (if GridState.canPlaceObject demoAB ⟨1, 0⟩ ⟨1, 1⟩
            (OccupationInfo.mk "A" ZLayer.CHARACTERS "character").zIndex (some "A") then
        GridState.placeObject (GridState.removeObject demoAB "A").1 "A"
          ⟨1, 0⟩ ⟨1, 1⟩ (OccupationInfo.mk "A" ZLayer.CHARACTERS "character").zIndex
          (OccupationInfo.mk "A" ZLayer.CHARACTERS "character").objectType
      else (demoAB, false)) :=
  moveObject_uses_scanned_tuple demoAB "A" ⟨1, 0⟩ ⟨1, 1⟩ ⟨0, 0⟩
    ⟨"A", ZLayer.CHARACTERS, "character"⟩ (by decide) (by decide) (by decide)

/-- C6 as stated is false for the `GridMaster.ts` revision of the footprint
enumeration, which the claim itself cites: at the 20×15 configuration, the
footprint of a 2×2 object anchored at (19,14) contains the rectangle tile
(19,15), yet `getOccupiedPositionsForObject` omits it (and returns one tile
instead of four) because that revision filters out-of-bounds tiles. -/
theorem footprint_clips_counterexample :
    (⟨19, 15⟩ : GridPosition) ∈ rectPositions ⟨19, 14⟩ 2 2 ∧
    (⟨19, 15⟩ : GridPosition) ∉
      GridRenderer.getOccupiedPositionsForObject cfg2015 ⟨19, 14⟩ ⟨2, 2⟩ ∧
    (GridRenderer.getOccupiedPositionsForObject cfg2015 ⟨19, 14⟩ ⟨2, 2⟩).length = 1 ∧
    (2 : Int).toNat * (2 : Int).toNat = 4 := by
  decide

/-- C6 amended: the two renderer revisions differ.  The older
`src/grid/GridRenderer.ts` revision enumerates the full `width × height`
rectangle without clipping or rejecting out-of-bounds tiles; the
`GridMaster.ts` revision keeps only in-bounds tiles (so the two coincide
exactly on pre-validated areas); the exploratory queries
`positionsInRectangle` and `positionsInRadius` clip to grid bounds. -/
theorem footprint_enumeration_spec :
    ∀ (cfg : GridConfig) (position : GridPosition) (size : ObjectSize)
      (w h radius : Int) (topLeft bottomRight center p : GridPosition),
      (p ∈ GridRendererPrev.getOccupiedPositions position w h ↔
        position.x ≤ p.x ∧ p.x < position.x + w ∧
        position.y ≤ p.y ∧ p.y < position.y + h) ∧
      (GridRendererPrev.getOccupiedPositions position w h).length
        = w.toNat * h.toNat ∧
      (GridRenderer.isValidObjectArea cfg position size = true →
        GridRenderer.getOccupiedPositionsForObject cfg position size
          = rectPositions position size.width size.height) ∧
      (p ∈ GridRenderer.getOccupiedPositions cfg position w h ↔
        p ∈ rectPositions position w h ∧
          GridRenderer.isValidGridPosition cfg p = true) ∧
      (p ∈ GridRenderer.getPositionsInRectangle cfg topLeft bottomRight →
        GridRenderer.isValidGridPosition cfg p = true) ∧
      (p ∈ GridRenderer.getPositionsInRadius cfg center radius →
        GridRenderer.isValidGridPosition cfg p = true) := by
  intro cfg position size w h radius topLeft bottomRight center p
  refine ⟨mem_rectPositions position w h p, length_rectPositions position w h,
    footprint_eq_rect_of_valid cfg position size, ?_, ?_, ?_⟩
  · unfold GridRenderer.getOccupiedPositions
    simp [List.mem_filter]
  · intro hp
    unfold GridRenderer.getPositionsInRectangle at hp
    simp only [List.mem_flatMap, List.mem_map] at hp
    obtain ⟨x, hx, y, hy, rfl⟩ := hp
    rw [mem_rangeIncl] at hx hy
    unfold GridRenderer.isValidGridPosition
    simp only [Bool.and_eq_true, decide_eq_true_eq]
    omega
  · intro hp
    unfold GridRenderer.getPositionsInRadius at hp
    simp only [List.mem_flatMap, List.mem_filterMap] at hp
    obtain ⟨x, hx, y, hy, hsome⟩ := hp
    rw [mem_rangeIncl] at hx hy
    by_cases hd : (x - center.x) * (x - center.x) + (y - center.y) * (y - center.y)
        ≤ radius * radius
    · rw [if_pos hd] at hsome
      cases hsome
      unfold GridRenderer.isValidGridPosition
      simp only [Bool.and_eq_true, decide_eq_true_eq]
      omega
    · rw [if_neg hd] at hsome
      cases hsome

/-- Witness for C6's amended theorem: on the 20×15 grid the clipping and
non-clipping enumerations agree for the valid 2×2 area at (18,13). -/
theorem footprint_enumeration_spec_witness :
    GridRenderer.getOccupiedPositionsForObject cfg2015 ⟨18, 13⟩ ⟨2, 2⟩
      = rectPositions ⟨18, 13⟩ 2 2 :=
  (footprint_enumeration_spec cfg2015 ⟨18, 13⟩ ⟨2, 2⟩ 2 2 0
    ⟨0, 0⟩ ⟨0, 0⟩ ⟨0, 0⟩ ⟨0, 0⟩).2.2.1 (by decide)

/-! ### The topmost-object fold (claim C10) -/

theorem reduceHighest_cons (h c : OccupationInfo) (t : List OccupationInfo) :
    GridState.reduceHighest h (c :: t) =
      GridState.reduceHighest (if c.zIndex > h.zIndex then c else h) t := rfl

theorem reduceHighest_mem : ∀ (t : List OccupationInfo) (h : OccupationInfo),
    GridState.reduceHighest h t ∈ h :: t := by
  intro t
  induction t with
  | nil =>
    intro h
    simp [GridState.reduceHighest]
  | cons c t ih =>
    intro h
    rw [reduceHighest_cons]
    rcases List.mem_cons.mp (ih (if c.zIndex > h.zIndex then c else h)) with heq | hmem
    · rw [heq]
      split <;> simp
    · exact List.mem_cons.mpr (Or.inr (List.mem_cons.mpr (Or.inr hmem)))

theorem reduceHighest_le : ∀ (t : List OccupationInfo) (h : OccupationInfo),
    ∀ o ∈ h :: t, o.zIndex ≤ (GridState.reduceHighest h t).zIndex := by
  intro t
  induction t with
  | nil =>
    intro h o ho
    rcases List.mem_cons.mp ho with rfl | hf
    · simp [GridState.reduceHighest]
    · simp at hf
  | cons c t ih =>
    intro h o ho
    rw [reduceHighest_cons]
    have hh : h.zIndex ≤ (if c.zIndex > h.zIndex then c else h).zIndex := by
      split <;> omega
    have hcle : c.zIndex ≤ (if c.zIndex > h.zIndex then c else h).zIndex := by
      split <;> omega
    have hhead := ih (if c.zIndex > h.zIndex then c else h)
      (if c.zIndex > h.zIndex then c else h) (List.mem_cons_self _ _)
    rcases List.mem_cons.mp ho with rfl | ho2
    · exact le_trans hh hhead
    · rcases List.mem_cons.mp ho2 with rfl | ho3
      · exact le_trans hcle hhead
      · exact ih _ o (List.mem_cons.mpr (Or.inr ho3))

theorem reduceHighest_find : ∀ (t : List OccupationInfo) (h : OccupationInfo),
    (h :: t).find? (fun o => decide ((GridState.reduceHighest h t).zIndex ≤ o.zIndex))
      = some (GridState.reduceHighest h t) := by
  intro t
  induction t with
  | nil =>
    intro h
    simp [GridState.reduceHighest, List.find?_cons_of_pos]
  | cons c t ih =>
    intro h
    by_cases hc : c.zIndex > h.zIndex
    · rw [reduceHighest_cons, if_pos hc]
      have hcr : c.zIndex ≤ (GridState.reduceHighest c t).zIndex :=
        reduceHighest_le t c c (List.mem_cons_self _ _)
      rw [List.find?_cons_of_neg _ (by simp only [decide_eq_true_eq]; omega)]
      exact ih c
    · rw [reduceHighest_cons, if_neg hc]
      by_cases hph : (GridState.reduceHighest h t).zIndex ≤ h.zIndex
      · have hih := ih h
        rw [List.find?_cons_of_pos _ (by simp [hph])] at hih
        have hhr : h = GridState.reduceHighest h t := by
          injection hih
        rw [List.find?_cons_of_pos _ (by simp [hph])]
        exact congrArg some hhr
      · have hih := ih h
        rw [List.find?_cons_of_neg _ (by simp [hph])] at hih
        rw [List.find?_cons_of_neg _ (by simp [hph])]
        have hpc : ¬(GridState.reduceHighest h t).zIndex ≤ c.zIndex := by omega
        rw [List.find?_cons_of_neg _ (by simp [hpc])]
        exact hih

/-- C10: `getObjectAtPosition` returns null exactly on a tile with no
occupancy tuples; otherwise it returns a tuple of maximal z-index, and among
tuples tied at that maximum it returns the earliest one in the tile's list
(the fold replaces its best only on a strictly greater z-index), stated as:
the returned tuple is the first list element whose z-index reaches the
maximum. -/
theorem getObjectAtPosition_topmost :
    ∀ (s : GridState) (position : GridPosition),
      (GridState.getObjectAtPosition s position = none ↔
        GridState.getAllObjectsAtPosition s position = []) ∧
      (∀ r, GridState.getObjectAtPosition s position = some r →
        r ∈ GridState.getAllObjectsAtPosition s position ∧
        (∀ o ∈ GridState.getAllObjectsAtPosition s position, o.zIndex ≤ r.zIndex) ∧
        (GridState.getAllObjectsAtPosition s position).find?
            (fun o => decide (r.zIndex ≤ o.zIndex)) = some r) := by
  intro s position
  unfold GridState.getObjectAtPosition GridState.getAllObjectsAtPosition
  cases hm : mapGet s.occupiedTiles position with
  | none => simp
  | some occ =>
    cases occ with
    | nil => simp
    | cons h t =>
      simp only [Option.getD_some]
      refine ⟨by simp, ?_⟩
      intro r hr
      have hr2 : GridState.reduceHighest h t = r := by
        injection hr
      rw [← hr2]
      exact ⟨reduceHighest_mem t h, reduceHighest_le t h, reduceHighest_find t h⟩

/-- Witness for C10 on a tile holding two tuples tied at z-index 300: the
first of the tied tuples is returned. -/
theorem getObjectAtPosition_topmost_witness :
    (⟨"e1", ZLayer.EFFECTS, "effect"⟩ : OccupationInfo)
        ∈ GridState.getAllObjectsAtPosition demoTie ⟨5, 5⟩ ∧
      (∀ o ∈ GridState.getAllObjectsAtPosition demoTie ⟨5, 5⟩,
        o.zIndex ≤ (⟨"e1", ZLayer.EFFECTS, "effect"⟩ : OccupationInfo).zIndex) ∧
      (GridState.getAllObjectsAtPosition demoTie ⟨5, 5⟩).find?
          (fun o => decide
            ((⟨"e1", ZLayer.EFFECTS, "effect"⟩ : OccupationInfo).zIndex ≤ o.zIndex))
        = some ⟨"e1", ZLayer.EFFECTS, "effect"⟩ :=
  (getObjectAtPosition_topmost demoTie ⟨5, 5⟩).2
    ⟨"e1", ZLayer.EFFECTS, "effect"⟩ (by decide)

/-! ### The placement check (claim C3) -/

theorem mapGet_mem_entries {α β : Type} [DecidableEq α] {m : List (α × β)}
    {k : α} {v : β} (h : mapGet m k = some v) : (k, v) ∈ m := by
  induction m with
  | nil => simp [mapGet] at h
  | cons e rest ih =>
    rw [mapGet_cons] at h
    by_cases h1 : e.1 = k
    · rw [if_pos h1] at h
      injection h with h2
      refine List.mem_cons.mpr (Or.inl ?_)
      cases e with
      | mk a b =>
        simp only at h1 h2
        rw [h1, h2]
    · rw [if_neg h1] at h
      exact List.mem_cons.mpr (Or.inr (ih h))

/-- C3: `canPlace` returns false when the area is not a valid in-bounds area;
on a valid area it returns true exactly when no occupancy tuple, at any tile
of the `size.width × size.height` rectangle anchored at `position`, whose id
differs from the excludeId conflicts with the given z-layer.  In the source
every stored object id is a non-empty string (JS treats an empty-string
excludeId as absent), which the hypothesis on the ledger captures. -/
theorem canPlaceObject_spec :
    ∀ (s : GridState) (position : GridPosition) (size : ObjectSize)
      (zIndex : Int) (excludeId : Option String),
      (∀ e ∈ s.occupiedTiles, ∀ info ∈ e.2, info.objectId ≠ "") →
      (GridRenderer.isValidObjectArea s.config position size = false →
        GridState.canPlaceObject s position size zIndex excludeId = false) ∧
      (GridRenderer.isValidObjectArea s.config position size = true →
        (GridState.canPlaceObject s position size zIndex excludeId = true ↔
          ∀ p : GridPosition,
            position.x ≤ p.x → p.x < position.x + size.width →
            position.y ≤ p.y → p.y < position.y + size.height →
            ∀ info ∈ GridState.getAllObjectsAtPosition s p,
              some info.objectId ≠ excludeId →
              GridState.hasZLayerConflict zIndex info.zIndex = false)) := by
  intro s position size zIndex excludeId hids
  constructor
  · intro hval
    unfold GridState.canPlaceObject
    simp [hval]
  · intro hval
    unfold GridState.canPlaceObject
    rw [footprint_eq_rect_of_valid s.config position size hval]
    simp only [hval, Bool.not_true, Bool.false_eq_true, if_false, List.all_eq_true]
    constructor
    · intro hall p h1 h2 h3 h4 info hinfo hne
      have hp : p ∈ rectPositions position size.width size.height :=
        (mem_rectPositions position size.width size.height p).mpr ⟨h1, h2, h3, h4⟩
      have h5 := hall p hp info hinfo
      by_cases hg : GridState.excludeGuard excludeId info = true
      · exfalso
        apply hne
        unfold GridState.excludeGuard at hg
        cases excludeId with
        | none => simp at hg
        | some e =>
          simp only [Bool.and_eq_true, decide_eq_true_eq] at hg
          rw [hg.2]
      · rw [if_neg hg] at h5
        simpa using h5
    · intro hrhs p hp info hinfo
      by_cases hg : GridState.excludeGuard excludeId info = true
      · simp [hg]
      · rw [if_neg hg]
        rw [mem_rectPositions] at hp
        have hidne : info.objectId ≠ "" := by
          unfold GridState.getAllObjectsAtPosition at hinfo
          cases hmg : mapGet s.occupiedTiles p with
          | none =>
            rw [hmg] at hinfo
            simp at hinfo
          | some l =>
            rw [hmg] at hinfo
            simp only [Option.getD_some] at hinfo
            exact hids (p, l) (mapGet_mem_entries hmg) info hinfo
        have hne : some info.objectId ≠ excludeId := by
          intro heq
          apply hg
          unfold GridState.excludeGuard
          rw [← heq]
          simp [hidne]
        have hc := hrhs p hp.1 hp.2.1 hp.2.2.1 hp.2.2.2 info hinfo hne
        simp [hc]

/-- Witness for C3: placing out of bounds on `demoAB` is rejected. -/
theorem canPlaceObject_spec_witness :
    GridState.canPlaceObject demoAB ⟨30, 5⟩ ⟨1, 1⟩ ZLayer.CHARACTERS none = false :=
  (canPlaceObject_spec demoAB ⟨30, 5⟩ ⟨1, 1⟩ ZLayer.CHARACTERS none (by decide)).1
    (by decide)

/-! ### Failure atomicity (claim C7) -/

theorem removeObject_config (s : GridState) (objectId : String) :
    ((GridState.removeObject s objectId).1).config = s.config := by
  unfold GridState.removeObject
  cases h1 : mapGet s.objectPositions objectId <;>
    cases h2 : mapGet s.objectSizes objectId <;> simp

theorem removeTileStep_subset (objectId : String)
    (m : List (GridPosition × List OccupationInfo)) (pos t : GridPosition)
    (info : OccupationInfo)
    (h : info ∈ (mapGet (GridState.removeTileStep objectId m pos) t).getD []) :
    info ∈ (mapGet m t).getD [] := by
  unfold GridState.removeTileStep at h
  cases hm : mapGet m pos with
  | none =>
    simp only [hm] at h
    exact h
  | some occ =>
    simp only [hm] at h
    by_cases hl : (occ.filter (fun i => !(decide (i.objectId = objectId)))).length = 0
    · rw [if_pos hl, mapGet_mapDelete] at h
      by_cases ht : t = pos
      · rw [if_pos ht] at h
        simp at h
      · rw [if_neg ht] at h
        exact h
    · rw [if_neg hl, mapGet_mapSet] at h
      by_cases ht : t = pos
      · rw [if_pos ht] at h
        simp only [Option.getD_some] at h
        rw [ht, hm]
        exact (List.mem_filter.mp h).1
      · rw [if_neg ht] at h
        exact h

theorem removeFold_subset (objectId : String) :
    ∀ (L : List GridPosition) (m : List (GridPosition × List OccupationInfo))
      (t : GridPosition) (info : OccupationInfo),
      info ∈ (mapGet (L.foldl (GridState.removeTileStep objectId) m) t).getD [] →
      info ∈ (mapGet m t).getD [] := by
  intro L
  induction L with
  | nil =>
    intro m t info h
    exact h
  | cons p L ih =>
    intro m t info h
    rw [List.foldl_cons] at h
    exact removeTileStep_subset objectId m p t info (ih _ t info h)

theorem removeObject_subset (s : GridState) (objectId : String) (t : GridPosition)
    (info : OccupationInfo)
    (h : info ∈ GridState.getAllObjectsAtPosition
      ((GridState.removeObject s objectId).1) t) :
    info ∈ GridState.getAllObjectsAtPosition s t := by
  unfold GridState.getAllObjectsAtPosition at h ⊢
  unfold GridState.removeObject at h
  cases h1 : mapGet s.objectPositions objectId with
  | none =>
    simp only [h1] at h
    exact h
  | some position =>
    cases h2 : mapGet s.objectSizes objectId with
    | none =>
      simp only [h1, h2] at h
      exact h
    | some size =>
      simp only [h1, h2] at h
      exact removeFold_subset objectId _ _ t info h

theorem canPlaceObject_mono (s s' : GridState) (position : GridPosition)
    (size : ObjectSize) (zIndex : Int) (excludeId : Option String)
    (hcfg : s'.config = s.config)
    (hsub : ∀ t info, info ∈ GridState.getAllObjectsAtPosition s' t →
      info ∈ GridState.getAllObjectsAtPosition s t)
    (h : GridState.canPlaceObject s position size zIndex excludeId = true) :
    GridState.canPlaceObject s' position size zIndex excludeId = true := by
  cases hval : GridRenderer.isValidObjectArea s.config position size with
  | false =>
    unfold GridState.canPlaceObject at h
    rw [hval] at h
    simp at h
  | true =>
    unfold GridState.canPlaceObject at h ⊢
    rw [hcfg]
    simp only [hval, Bool.not_true, Bool.false_eq_true, if_false,
      List.all_eq_true] at h ⊢
    intro p hp info hinfo
    exact h p hp info (hsub p info hinfo)

theorem placeObject_snd_eq_canPlace (s : GridState) (objectId : String)
    (position : GridPosition) (size : ObjectSize) (zIndex : Int)
    (objectType : String) :
    (GridState.placeObject s objectId position size zIndex objectType).2
      = GridState.canPlaceObject s position size zIndex (some objectId) := by
  unfold GridState.placeObject
  cases h : GridState.canPlaceObject s position size zIndex (some objectId) <;> simp [h]

/-- C7: a failed `place` for a fresh id and a failed `move` (unknown id,
missing scan tuple, or failed collision check) leave the state exactly as it
was — the occupancy ledger, both registry maps and the configuration are
unchanged. -/
theorem failed_mutations_change_nothing :
    ∀ (s : GridState) (objectId : String) (position newPosition : GridPosition)
      (size : ObjectSize) (zIndex : Int) (objectType : String),
      (mapGet s.objectPositions objectId = none →
        (GridState.placeObject s objectId position size zIndex objectType).2 = false →
        (GridState.placeObject s objectId position size zIndex objectType).1 = s) ∧
      ((GridState.moveObject s objectId newPosition).2 = false →
        (GridState.moveObject s objectId newPosition).1 = s) := by
  intro s objectId position newPosition size zIndex objectType
  constructor
  · intro _ hsnd
    have hfail : GridState.canPlaceObject s position size zIndex (some objectId)
        = false := by
      rw [← placeObject_snd_eq_canPlace s objectId position size zIndex objectType]
      exact hsnd
    unfold GridState.placeObject
    simp [hfail]
  · intro hsnd
    unfold GridState.moveObject at hsnd ⊢
    cases h1 : mapGet s.objectSizes objectId with
    | none => simp
    | some size' =>
      cases h2 : mapGet s.objectPositions objectId with
      | none => simp
      | some currentPosition =>
        cases h3 : (GridState.getAllObjectsAtPosition s currentPosition).find?
            (fun info => decide (info.objectId = objectId)) with
        | none => simp [h1, h2, h3]
        | some objectInfo =>
          simp only [h1, h2, h3] at hsnd ⊢
          cases hcp : GridState.canPlaceObject s newPosition size' objectInfo.zIndex
              (some objectId) with
          | false => simp [hcp]
          | true =>
            exfalso
            simp only [hcp, Bool.not_true, Bool.false_eq_true, if_false] at hsnd
            rw [placeObject_snd_eq_canPlace] at hsnd
            have hmono : GridState.canPlaceObject (GridState.removeObject s objectId).1
                newPosition size' objectInfo.zIndex (some objectId) = true :=
              canPlaceObject_mono s ((GridState.removeObject s objectId).1) newPosition
                size' objectInfo.zIndex (some objectId)
                (removeObject_config s objectId)
                (fun t info hi => removeObject_subset s objectId t info hi) hcp
            rw [hmono] at hsnd
            exact absurd hsnd (by simp)

/-- Witness for C7: an out-of-bounds place of a fresh id and a move of an
unknown id both fail and leave the empty state unchanged. -/
theorem failed_mutations_change_nothing_witness :
    (GridState.placeObject (GridState.emptyState cfg2015) "q" ⟨30, 0⟩ ⟨1, 1⟩
        ZLayer.CHARACTERS "character").1 = GridState.emptyState cfg2015 ∧
      (GridState.moveObject (GridState.emptyState cfg2015) "q" ⟨0, 0⟩).1
        = GridState.emptyState cfg2015 :=
  ⟨(failed_mutations_change_nothing (GridState.emptyState cfg2015) "q" ⟨30, 0⟩ ⟨0, 0⟩
      ⟨1, 1⟩ ZLayer.CHARACTERS "character").1 (by decide) (by decide),
    (failed_mutations_change_nothing (GridState.emptyState cfg2015) "q" ⟨30, 0⟩ ⟨0, 0⟩
      ⟨1, 1⟩ ZLayer.CHARACTERS "character").2 (by decide)⟩

/-! ### Resize eviction (claim C8) -/

theorem removeObject_positions_other (st : GridState) (X id : String) (h : id ≠ X) :
    mapGet ((GridState.removeObject st X).1).objectPositions id
      = mapGet st.objectPositions id := by
  unfold GridState.removeObject
  cases hp : mapGet st.objectPositions X with
  | none => cases hs : mapGet st.objectSizes X <;> simp
  | some p =>
    cases hs : mapGet st.objectSizes X with
    | none => simp
    | some sz =>
      simp only [mapGet_mapDelete, h, if_false]

theorem removeObject_sizes_other (st : GridState) (X id : String) (h : id ≠ X) :
    mapGet ((GridState.removeObject st X).1).objectSizes id
      = mapGet st.objectSizes id := by
  unfold GridState.removeObject
  cases hp : mapGet st.objectPositions X with
  | none => cases hs : mapGet st.objectSizes X <;> simp
  | some p =>
    cases hs : mapGet st.objectSizes X with
    | none => simp
    | some sz =>
      simp only [mapGet_mapDelete, h, if_false]

theorem removeObject_found (st : GridState) (X : String) (p : GridPosition)
    (sz : ObjectSize) (hp : mapGet st.objectPositions X = some p)
    (hs : mapGet st.objectSizes X = some sz) :
    ((GridState.removeObject st X).1).objectPositions = mapDelete st.objectPositions X ∧
    ((GridState.removeObject st X).1).objectSizes = mapDelete st.objectSizes X := by
  unfold GridState.removeObject
  rw [hp, hs]
  exact ⟨rfl, rfl⟩

theorem removeTileStep_countP (objectId id' : String) (h : id' ≠ objectId)
    (m : List (GridPosition × List OccupationInfo)) (pos t : GridPosition) :
    ((mapGet (GridState.removeTileStep objectId m pos) t).getD []).countP
        (fun i => decide (i.objectId = id'))
      = ((mapGet m t).getD []).countP (fun i => decide (i.objectId = id')) := by
  unfold GridState.removeTileStep
  cases hm : mapGet m pos with
  | none => rfl
  | some occ =>
    simp only []
    by_cases hl : (occ.filter (fun i => !(decide (i.objectId = objectId)))).length = 0
    · rw [if_pos hl, mapGet_mapDelete]
      by_cases ht : t = pos
      · rw [if_pos ht]
        have hall : ∀ i ∈ occ, i.objectId = objectId := by
          intro i hi
          by_contra hni
          have hmem : i ∈ occ.filter (fun i => !(decide (i.objectId = objectId))) :=
            List.mem_filter.mpr ⟨hi, by simp [hni]⟩
          rw [List.length_eq_zero] at hl
          rw [hl] at hmem
          simp at hmem
        rw [ht, hm]
        simp only [Option.getD_none, Option.getD_some, List.countP_nil]
        refine (List.countP_eq_zero.mpr ?_).symm
        intro i hi
        simp only [decide_eq_true_eq]
        rw [hall i hi]
        exact fun hh => h hh.symm
      · rw [if_neg ht]
    · rw [if_neg hl, mapGet_mapSet]
      by_cases ht : t = pos
      · rw [if_pos ht, ht, hm]
        simp only [Option.getD_some]
        rw [List.countP_filter]
        refine List.countP_congr ?_
        intro i _
        by_cases hio : i.objectId = id'
        · have hne : ¬i.objectId = objectId := by
            rw [hio]
            exact fun hh => h hh
          simp [hio, hne, h]
        · simp [hio]
      · rw [if_neg ht]

theorem removeFold_countP (objectId id' : String) (h : id' ≠ objectId) :
    ∀ (L : List GridPosition) (m : List (GridPosition × List OccupationInfo))
      (t : GridPosition),
      ((mapGet (L.foldl (GridState.removeTileStep objectId) m) t).getD []).countP
          (fun i => decide (i.objectId = id'))
        = ((mapGet m t).getD []).countP (fun i => decide (i.objectId = id')) := by
  intro L
  induction L with
  | nil =>
    intro m t
    rfl
  | cons p L ih =>
    intro m t
    rw [List.foldl_cons, ih, removeTileStep_countP objectId id' h]

theorem removeObject_tupleCount_other (st : GridState) (X id : String)
    (h : id ≠ X) (t : GridPosition) :
    GridState.tupleCount ((GridState.removeObject st X).1) t id
      = GridState.tupleCount st t id := by
  unfold GridState.tupleCount GridState.getAllObjectsAtPosition
  unfold GridState.removeObject
  cases hp : mapGet st.objectPositions X with
  | none => cases hs : mapGet st.objectSizes X <;> simp
  | some p =>
    cases hs : mapGet st.objectSizes X with
    | none => simp
    | some sz =>
      simp only []
      exact removeFold_countP X id h _ st.occupiedTiles t

theorem removeTileStep_tuples_other (objectId id' : String) (h : id' ≠ objectId)
    (m : List (GridPosition × List OccupationInfo)) (pos t : GridPosition) :
    ((mapGet (GridState.removeTileStep objectId m pos) t).getD []).filter
        (fun i => decide (i.objectId = id'))
      = ((mapGet m t).getD []).filter (fun i => decide (i.objectId = id')) := by
  unfold GridState.removeTileStep
  cases hm : mapGet m pos with
  | none => rfl
  | some occ =>
    simp only []
    by_cases hl : (occ.filter (fun i => !(decide (i.objectId = objectId)))).length = 0
    · rw [if_pos hl, mapGet_mapDelete]
      by_cases ht : t = pos
      · rw [if_pos ht]
        have hall : ∀ i ∈ occ, i.objectId = objectId := by
          intro i hi
          by_contra hni
          have hmem : i ∈ occ.filter (fun i => !(decide (i.objectId = objectId))) :=
            List.mem_filter.mpr ⟨hi, by simp [hni]⟩
          rw [List.length_eq_zero] at hl
          rw [hl] at hmem
          simp at hmem
        rw [ht, hm]
        simp only [Option.getD_none, Option.getD_some, List.filter_nil]
        refine (List.filter_eq_nil_iff.mpr ?_).symm
        intro i hi
        simp only [decide_eq_true_eq]
        rw [hall i hi]
        exact fun hh => h hh.symm
      · rw [if_neg ht]
    · rw [if_neg hl, mapGet_mapSet]
      by_cases ht : t = pos
      · rw [if_pos ht, ht, hm]
        simp only [Option.getD_some]
        rw [List.filter_filter]
        refine List.filter_congr ?_
        intro i _
        by_cases hio : i.objectId = id'
        · have hne : ¬i.objectId = objectId := by
            rw [hio]
            exact fun hh => h hh
          simp [hio, hne, h]
        · simp [hio]
      · rw [if_neg ht]

theorem removeFold_tuples_other (objectId id' : String) (h : id' ≠ objectId) :
    ∀ (L : List GridPosition) (m : List (GridPosition × List OccupationInfo))
      (t : GridPosition),
      ((mapGet (L.foldl (GridState.removeTileStep objectId) m) t).getD []).filter
          (fun i => decide (i.objectId = id'))
        = ((mapGet m t).getD []).filter (fun i => decide (i.objectId = id')) := by
  intro L
  induction L with
  | nil =>
    intro m t
    rfl
  | cons p L ih =>
    intro m t
    rw [List.foldl_cons, ih, removeTileStep_tuples_other objectId id' h]

theorem removeObject_tuplesFor_other (st : GridState) (X id : String)
    (h : id ≠ X) (t : GridPosition) :
    GridState.tuplesFor ((GridState.removeObject st X).1) t id
      = GridState.tuplesFor st t id := by
  unfold GridState.tuplesFor GridState.getAllObjectsAtPosition
  unfold GridState.removeObject
  cases hp : mapGet st.objectPositions X with
  | none => cases hs : mapGet st.objectSizes X <;> simp
  | some p =>
    cases hs : mapGet st.objectSizes X with
    | none => simp
    | some sz =>
      simp only []
      exact removeFold_tuples_other X id h _ st.occupiedTiles t

theorem resizeStep_eq (r st : GridState) (X : String)
    (hcfg : st.config = r.config)
    (htrp : mapGet st.objectPositions X = mapGet r.objectPositions X)
    (htrs : mapGet st.objectSizes X = mapGet r.objectSizes X) :
    GridState.resizeStep st X =
      (if GridState.evictedByResize r X = true then (GridState.removeObject st X).1
       else st) := by
  unfold GridState.resizeStep GridState.evictedByResize
  rw [htrp, htrs, hcfg]
  cases hp : mapGet r.objectPositions X with
  | none => cases hs : mapGet r.objectSizes X <;> simp
  | some p =>
    cases hs : mapGet r.objectSizes X with
    | none => simp
    | some sz =>
      cases hv : GridRenderer.isValidObjectArea r.config p sz <;> simp [hv]

theorem and_mem_cons_false {id X : String} {L' : List String} {b : Bool}
    (h : (decide (id ∈ X :: L') && b) = false) :
    (decide (id ∈ L') && b) = false := by
  cases hb : b
  · simp
  · rw [hb, Bool.and_true] at h
    rw [Bool.and_true]
    simp only [decide_eq_false_iff_not] at h ⊢
    intro hh
    exact h (List.mem_cons.mpr (Or.inr hh))

theorem countP_not_eq {γ : Type} (l : List γ) (p : γ → Bool) :
    l.countP (fun a => !(p a)) = l.length - l.countP p := by
  induction l with
  | nil => simp
  | cons a l ih =>
    have hle : l.countP p ≤ l.length := List.countP_le_length p
    cases hpa : p a
    · simp [List.countP_cons, hpa, ih]
      omega
    · simp [List.countP_cons, hpa, ih]

theorem resizeScan_spec (r : GridState) :
    ∀ (L : List String) (st : GridState),
      L.Nodup →
      st.config = r.config →
      (∀ id ∈ L, mapGet st.objectPositions id = mapGet r.objectPositions id ∧
        mapGet st.objectSizes id = mapGet r.objectSizes id) →
      (L.foldl GridState.resizeStep st).objectPositions
          = st.objectPositions.filter
              (fun e => !(decide (e.1 ∈ L) && GridState.evictedByResize r e.1)) ∧
        (L.foldl GridState.resizeStep st).objectSizes
          = st.objectSizes.filter
              (fun e => !(decide (e.1 ∈ L) && GridState.evictedByResize r e.1)) ∧
        (L.foldl GridState.resizeStep st).config = st.config ∧
        (∀ id t, (decide (id ∈ L) && GridState.evictedByResize r id) = false →
          GridState.tuplesFor (L.foldl GridState.resizeStep st) t id
            = GridState.tuplesFor st t id) := by
  intro L
  induction L with
  | nil =>
    intro st _ _ _
    refine ⟨?_, ?_, rfl, fun id t _ => rfl⟩ <;> simp
  | cons X L' ih =>
    intro st hnd hcfg htr
    have hndL' : L'.Nodup := (List.nodup_cons.mp hnd).2
    have hXnot : X ∉ L' := (List.nodup_cons.mp hnd).1
    obtain ⟨htrp, htrs⟩ := htr X (List.mem_cons_self _ _)
    have htr' : ∀ id ∈ L', mapGet st.objectPositions id = mapGet r.objectPositions id ∧
        mapGet st.objectSizes id = mapGet r.objectSizes id :=
      fun id hid => htr id (List.mem_cons.mpr (Or.inr hid))
    rw [List.foldl_cons, resizeStep_eq r st X hcfg htrp htrs]
    cases hev : GridState.evictedByResize r X with
    | false =>
      rw [if_neg (by simp)]
      obtain ⟨ihp, ihs, ihc, ihcnt⟩ := ih st hndL' hcfg htr'
      refine ⟨?_, ?_, ihc, ?_⟩
      · rw [ihp]
        refine List.filter_congr ?_
        intro e _
        by_cases hex : e.1 = X
        · simp [hex, hev, hXnot, List.mem_cons]
        · simp [hex, List.mem_cons]
      · rw [ihs]
        refine List.filter_congr ?_
        intro e _
        by_cases hex : e.1 = X
        · simp [hex, hev, hXnot, List.mem_cons]
        · simp [hex, List.mem_cons]
      · intro id t hcond
        exact ihcnt id t (and_mem_cons_false hcond)
    | true =>
      rw [if_pos rfl]
      have hex : ∃ p sz, mapGet r.objectPositions X = some p ∧
          mapGet r.objectSizes X = some sz := by
        unfold GridState.evictedByResize at hev
        cases hp : mapGet r.objectPositions X with
        | none =>
          rw [hp] at hev
          cases hs : mapGet r.objectSizes X <;> rw [hs] at hev <;> simp at hev
        | some p =>
          cases hs : mapGet r.objectSizes X with
          | none =>
            rw [hp, hs] at hev
            simp at hev
          | some sz => exact ⟨p, sz, rfl, rfl⟩
      obtain ⟨p, sz, hp, hs⟩ := hex
      have hstp : mapGet st.objectPositions X = some p := htrp.trans hp
      have hsts : mapGet st.objectSizes X = some sz := htrs.trans hs
      have hcfg' : ((GridState.removeObject st X).1).config = r.config :=
        (removeObject_config st X).trans hcfg
      have htr'' : ∀ id ∈ L',
          mapGet ((GridState.removeObject st X).1).objectPositions id
            = mapGet r.objectPositions id ∧
          mapGet ((GridState.removeObject st X).1).objectSizes id
            = mapGet r.objectSizes id := by
        intro id hid
        have hne : id ≠ X := fun hh => hXnot (hh ▸ hid)
        rw [removeObject_positions_other st X id hne,
          removeObject_sizes_other st X id hne]
        exact htr' id hid
      obtain ⟨ihp, ihs, ihc, ihcnt⟩ := ih ((GridState.removeObject st X).1) hndL' hcfg' htr''
      obtain ⟨hrp, hrs⟩ := removeObject_found st X p sz hstp hsts
      refine ⟨?_, ?_, ?_, ?_⟩
      · rw [ihp, hrp, mapDelete_eq_filter, List.filter_filter]
        refine List.filter_congr ?_
        intro e _
        by_cases hex2 : e.1 = X
        · simp [hex2, hev, List.mem_cons]
        · simp [hex2, List.mem_cons]
      · rw [ihs, hrs, mapDelete_eq_filter, List.filter_filter]
        refine List.filter_congr ?_
        intro e _
        by_cases hex2 : e.1 = X
        · simp [hex2, hev, List.mem_cons]
        · simp [hex2, List.mem_cons]
      · rw [ihc]
        exact removeObject_config st X
      · intro id t hcond
        have hidne : id ≠ X := by
          intro hh
          subst hh
          rw [hev] at hcond
          simp [List.mem_cons] at hcond
        rw [ihcnt id t (and_mem_cons_false hcond)]
        exact removeObject_tuplesFor_other st X id hidne t

theorem mapGet_filter_evict {β : Type} (L : List String) (r : GridState)
    (m : List (String × β)) (k : String) :
    mapGet (m.filter (fun e => !(decide (e.1 ∈ L) && GridState.evictedByResize r e.1))) k
      = if !(decide (k ∈ L) && GridState.evictedByResize r k) then mapGet m k
        else none :=
  mapGet_filter_key (fun k => !(decide (k ∈ L) && GridState.evictedByResize r k)) m k

theorem handleGridResize_spec_aux (s0 : GridState)
    (hnd : (mapKeys s0.objectPositions).Nodup) :
    (∀ id p sz, mapGet s0.objectPositions id = some p →
      mapGet s0.objectSizes id = some sz →
      GridRenderer.isValidObjectArea s0.config p sz = false →
      mapGet ((mapKeys s0.objectPositions).foldl GridState.resizeStep s0).objectPositions
          id = none) ∧
    (∀ id p sz, mapGet s0.objectPositions id = some p →
      mapGet s0.objectSizes id = some sz →
      GridRenderer.isValidObjectArea s0.config p sz = true →
      mapGet ((mapKeys s0.objectPositions).foldl GridState.resizeStep s0).objectPositions
          id = some p ∧
      mapGet ((mapKeys s0.objectPositions).foldl GridState.resizeStep s0).objectSizes
          id = some sz ∧
      ∀ t, GridState.tuplesFor
          ((mapKeys s0.objectPositions).foldl GridState.resizeStep s0) t id
        = GridState.tuplesFor s0 t id) ∧
    ((mapKeys s0.objectPositions).foldl GridState.resizeStep s0).objectPositions.length
      = s0.objectPositions.length
        - s0.objectPositions.countP (fun e => GridState.evictedByResize s0 e.1) := by
  obtain ⟨ihp, ihs, _, ihcnt⟩ :=
    resizeScan_spec s0 (mapKeys s0.objectPositions) s0 hnd rfl (fun id _ => ⟨rfl, rfl⟩)
  refine ⟨?_, ?_, ?_⟩
  · intro id p sz hp hs hval
    rw [ihp, mapGet_filter_evict]
    have hmem : id ∈ mapKeys s0.objectPositions := mapGet_some_mem_keys hp
    have hev : GridState.evictedByResize s0 id = true := by
      unfold GridState.evictedByResize
      simp only [hp, hs, hval]
      rfl
    rw [hev]
    simp [hmem]
  · intro id p sz hp hs hval
    have hev : GridState.evictedByResize s0 id = false := by
      unfold GridState.evictedByResize
      simp only [hp, hs, hval]
      rfl
    refine ⟨?_, ?_, ?_⟩
    · rw [ihp, mapGet_filter_evict, hev]
      simp [hp]
    · rw [ihs, mapGet_filter_evict, hev]
      simp [hs]
    · intro t
      exact ihcnt id t (by rw [hev, Bool.and_false])
  · rw [ihp, ← List.countP_eq_length_filter]
    have hcongr : s0.objectPositions.countP
          (fun e => !(decide (e.1 ∈ mapKeys s0.objectPositions)
            && GridState.evictedByResize s0 e.1))
        = s0.objectPositions.countP (fun e => !(GridState.evictedByResize s0 e.1)) := by
      refine List.countP_congr ?_
      intro e he
      have hmem : e.1 ∈ mapKeys s0.objectPositions :=
        List.mem_map_of_mem (fun e => e.1) he
      simp [hmem]
    rw [hcongr, countP_not_eq]

/-- C8: for every state with unique registry keys and new positive
dimensions, `handleGridResize` evicts exactly the objects whose footprint is
no longer a valid area under the new bounds — their `objectPosition` becomes
null and `totalObjects` drops by the number of evicted registry entries —
while every object whose footprint still fits keeps its registry records and
all of its occupancy tuples unchanged: at every tile, the sublist of tuples
carrying its id — order and `zIndex`/`objectType` payloads included — is the
same before and after. -/
theorem handleGridResize_spec :
    ∀ (s : GridState) (newWidth newHeight : Int),
      0 < newWidth → 0 < newHeight →
      (mapKeys s.objectPositions).Nodup →
      (∀ id p sz, mapGet s.objectPositions id = some p →
        mapGet s.objectSizes id = some sz →
        GridRenderer.isValidObjectArea
          { s.config with width := newWidth, height := newHeight } p sz = false →
        GridState.getObjectPosition (GridState.handleGridResize s newWidth newHeight) id
          = none) ∧
      (∀ id p sz, mapGet s.objectPositions id = some p →
        mapGet s.objectSizes id = some sz →
        GridRenderer.isValidObjectArea
          { s.config with width := newWidth, height := newHeight } p sz = true →
        GridState.getObjectPosition (GridState.handleGridResize s newWidth newHeight) id
          = some p ∧
        GridState.getObjectSize (GridState.handleGridResize s newWidth newHeight) id
          = some sz ∧
        ∀ t, GridState.tuplesFor (GridState.handleGridResize s newWidth newHeight) t id
          = GridState.tuplesFor s t id) ∧
      GridState.totalObjects (GridState.handleGridResize s newWidth newHeight)
        = GridState.totalObjects s
          - s.objectPositions.countP
              (fun e => GridState.evictedByResize
                { s with config := { s.config with width := newWidth, height := newHeight } }
                e.1) := by
  intro s newWidth newHeight _ _ hnd
  obtain ⟨ha, hb, hc⟩ := handleGridResize_spec_aux
    { s with config := { s.config with width := newWidth, height := newHeight } } hnd
  exact ⟨fun id p sz hp hs hv => ha id p sz hp hs hv,
    fun id p sz hp hs hv => hb id p sz hp hs hv, hc⟩

/-- Witness for C8 on a concrete two-object scenario: shrinking the 20×15
grid to 15×10 evicts the edge prop "a" (its position becomes null) while the
character "b" keeps its record and its occupancy tuples at (0,0), and the
object count drops by exactly the number of evicted registry entries. -/
theorem handleGridResize_spec_witness :
    GridState.getObjectPosition (GridState.handleGridResize resizeDemoTwo 15 10) "a"
        = none ∧
      GridState.getObjectPosition (GridState.handleGridResize resizeDemoTwo 15 10) "b"
        = some ⟨0, 0⟩ ∧
      GridState.tuplesFor (GridState.handleGridResize resizeDemoTwo 15 10) ⟨0, 0⟩ "b"
        = GridState.tuplesFor resizeDemoTwo ⟨0, 0⟩ "b" ∧
      GridState.totalObjects (GridState.handleGridResize resizeDemoTwo 15 10)
        = GridState.totalObjects resizeDemoTwo
          - resizeDemoTwo.objectPositions.countP
              (fun e => GridState.evictedByResize
                { resizeDemoTwo with
                  config := { resizeDemoTwo.config with width := 15, height := 10 } }
                e.1) :=
  ⟨(handleGridResize_spec resizeDemoTwo 15 10 (by decide) (by decide) (by decide)).1
      "a" ⟨18, 13⟩ ⟨2, 2⟩ (by decide) (by decide) (by decide),
    ((handleGridResize_spec resizeDemoTwo 15 10 (by decide) (by decide) (by decide)).2.1
      "b" ⟨0, 0⟩ ⟨1, 1⟩ (by decide) (by decide) (by decide)).1,
    ((handleGridResize_spec resizeDemoTwo 15 10 (by decide) (by decide) (by decide)).2.1
      "b" ⟨0, 0⟩ ⟨1, 1⟩ (by decide) (by decide) (by decide)).2.2 ⟨0, 0⟩,
    (handleGridResize_spec resizeDemoTwo 15 10 (by decide) (by decide) (by decide)).2.2⟩
